import Mathlib

/-!
Verification of the weather lookup and recommendation pipeline in
`src/tools/clima.py` (repository `mcp-weather`).

The Python code is shallowly embedded: every Python string operation used by
the code is re-implemented over `List Char` (Python `str` semantics on the
ASCII fragment exercised by the code; `len`, slicing and `lower` agree with
code points).  HTTP traffic is modelled by environments mapping a query
string to the decoded response, and every function that performs HTTP also
returns the list of requests it issued, so that claims about which endpoint
is queried, in which order, and with which timeout can be stated.
-/

namespace Clima

/-- Python `str.isspace` characters stripped by `str.strip()`. -/
def isPySpace (c : Char) : Bool :=
  c == ' ' || c == '\t' || c == '\n' || c == '\r' || c == (Char.ofNat 11) || c == (Char.ofNat 12)

/-- ASCII lower-casing of one character, as Python `str.lower` acts on ASCII. -/
def charLower (c : Char) : Char :=
  if 65 ≤ c.toNat ∧ c.toNat ≤ 90 then Char.ofNat (c.toNat + 32) else c

/-- ASCII upper-casing of one character, as Python `str.upper` acts on ASCII. -/
def charUpper (c : Char) : Char :=
  if 97 ≤ c.toNat ∧ c.toNat ≤ 122 then Char.ofNat (c.toNat - 32) else c

/-- ASCII letter test (stands in for Python's "cased character" in `str.title`). -/
def isAsciiAlpha (c : Char) : Bool :=
  (65 ≤ c.toNat && c.toNat ≤ 90) || (97 ≤ c.toNat && c.toNat ≤ 122)

/-- Boolean list-prefix test (Python `str.startswith` on the char lists). -/
def prefixOfL : List Char → List Char → Bool
  | [], _ => true
  | _ :: _, [] => false
  | p :: ps, c :: cs => p == c && prefixOfL ps cs

/-- Python `pat in s` substring test on char lists. -/
def hasSubL (pat : List Char) : List Char → Bool
  | [] => prefixOfL pat []
  | c :: rest => prefixOfL pat (c :: rest) || hasSubL pat rest

/-- Python `str.split(sep)` for a one-character separator (keeps empty parts). -/
def splitCharL (sep : Char) : List Char → List (List Char)
  | [] => [[]]
  | c :: rest =>
    match splitCharL sep rest with
    | [] => [[c]]
    | h :: t => if c == sep then [] :: h :: t else (c :: h) :: t

/-- Helper for Python `str.replace`: the fuel starts at the length of the
string and each step consumes at least one character, so the `0` case is
never reached on the initial call. -/
def replaceFuelL (pat repl : List Char) : Nat → List Char → List Char
  | _, [] => []
  | 0, s => s
  | fuel + 1, c :: rest =>
    if pat ≠ [] ∧ prefixOfL pat (c :: rest) then
      repl ++ replaceFuelL pat repl fuel ((c :: rest).drop pat.length)
    else
      c :: replaceFuelL pat repl fuel rest

/-- Python `str.replace pat repl` (leftmost, non-overlapping). -/
def replaceL (pat repl s : List Char) : List Char :=
  replaceFuelL pat repl s.length s

/-- Python `str.title` worker: upper-case a letter that follows a non-letter,
lower-case a letter that follows a letter. -/
def titleGoL : Bool → List Char → List Char
  | _, [] => []
  | prevAlpha, c :: rest =>
    if isAsciiAlpha c then
      (if prevAlpha then charLower c else charUpper c) :: titleGoL true rest
    else
      c :: titleGoL false rest

/-- Python `str.strip()` (whitespace from both ends). -/
def stripL (s : List Char) : List Char :=
  ((s.dropWhile isPySpace).reverse.dropWhile isPySpace).reverse

/-- Python `str.strip(chars)` for an explicit character set. -/
def stripCharsL (set : List Char) (s : List Char) : List Char :=
  ((s.dropWhile (set.contains ·)).reverse.dropWhile (set.contains ·)).reverse

/-- Python `str.split()` with no argument: split on whitespace runs and drop
empty parts. -/
def splitWsL (s : List Char) : List (List Char) :=
  (splitCharL ' ' (s.map (fun c => if isPySpace c then ' ' else c))).filter
    (fun w => !w.isEmpty)

/-- Python `sep.join` on char lists. -/
def joinL (sep : List Char) : List (List Char) → List Char
  | [] => []
  | [w] => w
  | w :: ws => w ++ sep ++ joinL sep ws

/-- Python `str.lower` (ASCII). -/
def pyLower (s : String) : String := ⟨s.data.map charLower⟩

/-- Python `str.strip()`. -/
def pyStrip (s : String) : String := ⟨stripL s.data⟩

/-- Python `str.title()` (ASCII). -/
def pyTitle (s : String) : String := ⟨titleGoL false s.data⟩

/-- Python `str.capitalize()` (ASCII): first character upper, rest lower. -/
def pyCapitalize (s : String) : String :=
  match s.data with
  | [] => ""
  | c :: rest => ⟨charUpper c :: rest.map charLower⟩

/-- Python `s.startswith(p)`. -/
def pyStartsWith (s p : String) : Bool := prefixOfL p.data s.data

/-- Python slicing `s[n:]` (by code points, as Python indexes `str`). -/
def pyDrop (s : String) (n : Nat) : String := ⟨s.data.drop n⟩

/-- Python `len(s)` (code points). -/
def pyLen (s : String) : Nat := s.data.length

/-- Python `s.replace(pat, repl)`. -/
def pyReplace (s pat repl : String) : String := ⟨replaceL pat.data repl.data s.data⟩

/-- Python `pat in s` substring test. -/
def pyContainsSub (s pat : String) : Bool := hasSubL pat.data s.data

/-- Python `c in s` for a single character. -/
def pyContainsChar (s : String) (c : Char) : Bool := s.data.contains c

/-- Python `s.split(c)` for a one-character separator. -/
def pySplitChar (s : String) (c : Char) : List String :=
  (splitCharL c s.data).map (fun l => ⟨l⟩)

/-- Python `s.split()` (whitespace, empties dropped). -/
def pySplitWs (s : String) : List String := (splitWsL s.data).map (fun l => ⟨l⟩)

/-- Python `sep.join(ws)`. -/
def pyJoin (sep : String) (ws : List String) : String :=
  ⟨joinL sep.data (ws.map String.data)⟩

/-- Python `s.strip(chars)`. -/
def pyStripChars (s : String) (set : List Char) : String := ⟨stripCharsL set s.data⟩

/-- Exact value of a parsed Python float literal, kept as an integer pair
`num / den` with `den` a positive power of ten (the decimal literals the code
parses are exact; IEEE rounding of `float()` is not modelled). -/
structure PyNum where
  num : Int
  den : Nat
  deriving DecidableEq

/-- Comparison `t > x` of a parsed temperature against an integer threshold,
by cross multiplication. -/
def PyNum.gtI (t : PyNum) (x : Int) : Bool := decide (x * (t.den : Int) < t.num)

/-- Comparison `t < x` of a parsed temperature against an integer threshold. -/
def PyNum.ltI (t : PyNum) (x : Int) : Bool := decide (t.num < x * (t.den : Int))

/-- ASCII digit test. -/
def isDigitC (c : Char) : Bool := 48 ≤ c.toNat && c.toNat ≤ 57

/-- Numeric value of a digit string. -/
def digitsToNat (l : List Char) : Nat := l.foldl (fun a c => 10 * a + (c.toNat - 48)) 0

/-- Python `float(s)` on decimal literals: optional sign, integer digits,
optional fraction, optional exponent (`inf`, `nan` and digit underscores are
not modelled; the weather texts only carry plain decimals).  Returns `none`
exactly when `float` raises `ValueError` on such inputs. -/
def pyFloat (s : String) : Option PyNum :=
  let cs := stripL s.data
  let signAndRest : Int × List Char :=
    match cs with
    | '+' :: r => (1, r)
    | '-' :: r => (-1, r)
    | _ => (1, cs)
  let sign := signAndRest.1
  let r := signAndRest.2
  let ip := r.takeWhile isDigitC
  let rest := r.dropWhile isDigitC
  let fracAndRest : List Char × List Char :=
    match rest with
    | '.' :: r2 => (r2.takeWhile isDigitC, r2.dropWhile isDigitC)
    | _ => ([], rest)
  let fp := fracAndRest.1
  let rest2 := fracAndRest.2
  if ip = [] ∧ fp = [] then none
  else
    let m : Int := sign * (digitsToNat (ip ++ fp) : Int)
    let den : Nat := 10 ^ fp.length
    match rest2 with
    | [] => some ⟨m, den⟩
    | e :: r3 =>
      if e == 'e' || e == 'E' then
        let esignAndRest : Bool × List Char :=
          match r3 with
          | '+' :: r4 => (false, r4)
          | '-' :: r4 => (true, r4)
          | _ => (false, r3)
        let ed := esignAndRest.2
        if ed ≠ [] ∧ ed.all isDigitC then
          let ev := digitsToNat ed
          if esignAndRest.1 then some ⟨m, den * 10 ^ ev⟩
          else some ⟨m * (10 ^ ev : Nat), den⟩
        else none
      else none

/-! ## HTTP model

Each outgoing HTTP call is recorded as a `Request`; responses are supplied by
environment functions from the query string, so a run of the embedded code is
a pure function of the input and the environment. -/

/-- The four HTTP endpoints the pipeline can hit: the three AccuWeather ones
(`requests.get` in `get_location_key` and `get_weather_accuweather`) and the
OpenWeatherMap lookup performed by `pyowm`'s `weather_at_place`. -/
inductive Endpoint where
  | autocomplete
  | search
  | currentConditions
  | owmWeatherAtPlace
  deriving DecidableEq

/-- One outgoing HTTP request: which endpoint, the search term / location key
/ city it carries, and the timeout in seconds it is issued with (`none` would
mean no bound). -/
structure Request where
  endpoint : Endpoint
  query : String
  timeout : Option Nat
  deriving DecidableEq

/-- One entry of an AccuWeather location JSON array, restricted to the two
keys the code inspects: presence/value of `Key` and presence of
`LocalizedName`. -/
structure Suggestion where
  key : Option String
  localizedName : Option String
  deriving DecidableEq

/-- Decoded response of an AccuWeather location endpoint: the request raised
`requests.RequestException` (including non-2xx via `raise_for_status`), the
JSON was not a list, or it was a list of entries. -/
inductive LocResponse where
  | reqError
  | nonList
  | items (l : List Suggestion)

/-- Responses of the two geocoding endpoints, as functions of the search
term (the api key and language parameters are fixed module constants and are
not modelled). -/
structure LocEnv where
  autocomplete : String → LocResponse
  search : String → LocResponse

/-! ## Location resolver (`get_location_key`, clima.py lines 26-138) -/

/-- `CITY_MANUAL_MAPPING` (clima.py lines 20-24). -/
def CITY_MANUAL_MAPPING : List (String × String) :=
  [("vilagarcia de arousa", "308526"),
   ("vilagarcía de arousa", "308526"),
   ("vila garcia de arousa", "308526")]

/-- Python `dict` membership plus indexing: first binding of the key. -/
def lookupMapping (m : List (String × String)) (k : String) : Option String :=
  match m with
  | [] => none
  | p :: rest => if p.1 = k then some p.2 else lookupMapping rest k

/-- `common_phrases` (clima.py lines 43-45), in source order. -/
def common_phrases : List String :=
  ["what", "is", "the", "weather", "in", "for", "like",
   "i", "would", "like", "to", "know", "tiempo", "clima",
   "el", "la", "de", "del", "en", "weather in", "tiempo en", "clima en"]

/-- Stable insertion of a string into a list sorted by length, descending;
an element is placed before the first entry that is strictly shorter, so
equal lengths keep their original relative order, as Python's stable
`sorted(key=len, reverse=True)` does. -/
def insertByLenDesc (x : String) : List String → List String
  | [] => [x]
  | y :: ys => if y.length ≤ x.length then x :: y :: ys else y :: insertByLenDesc x ys

/-- `sorted(common_phrases, key=len, reverse=True)` (clima.py line 49). -/
def sorted_common_phrases : List String :=
  common_phrases.foldr insertByLenDesc []

/-- The phrase-removal loop (clima.py lines 48-53): one pass over the sorted
phrase list; whenever the current city lower-cases to something starting with
the phrase, that many leading characters are dropped and the rest stripped. -/
def stripPhrasesGo (city : String) : List String → String
  | [] => city
  | p :: ps =>
    if pyStartsWith (pyLower city) p then
      stripPhrasesGo (pyStrip (pyDrop city (pyLen p))) ps
    else
      stripPhrasesGo city ps

/-- Cleaning performed by `get_location_key` before any HTTP call (clima.py
lines 39-64): strip + title case, the phrase-removal pass, and the removal of
a leading `"de "`. -/
def cleanLocationCity (city : String) : String :=
  let city1 := pyTitle (pyStrip city)
  let city2 := stripPhrasesGo city1 sorted_common_phrases
  if pyStartsWith (pyLower city2) "de " then pyStrip (pyDrop city2 3) else city2

/-- The three `search_terms` variants (clima.py lines 69-73). -/
def searchTerms (city : String) : List String :=
  [city,
   pyReplace city " de " " ",
   pyJoin " " ((pySplitWs city).filter (fun w => !(pyLower w == "de")))]

/-- The autocomplete scan (clima.py lines 96-99): return `suggestion['Key']`
of the first entry that has both a `Key` and a `LocalizedName`. -/
def findSuggestionKey : List Suggestion → Option String
  | [] => none
  | s :: rest =>
    match s.key, s.localizedName with
    | some k, some _ => some k
    | _, _ => findSuggestionKey rest

/-- The search-endpoint scan (clima.py lines 116-119): return the `Key` of
the first entry that has one. -/
def findLocationKey : List Suggestion → Option String
  | [] => none
  | s :: rest =>
    match s.key with
    | some k => some k
    | none => findLocationKey rest

/-- The autocomplete request a loop iteration issues (clima.py line 86,
`timeout=10`). -/
def autoReq (t : String) : Request := ⟨Endpoint.autocomplete, t, some 10⟩

/-- The search request a loop iteration issues (clima.py line 111,
`timeout=10`). -/
def searchReq (t : String) : Request := ⟨Endpoint.search, t, some 10⟩

/-- The search-endpoint half of a loop iteration (clima.py lines 101-119),
reached only after the autocomplete call returned a list with no usable
suggestion; both requests of the iteration are reported. -/
def trySearchEndpoint (t : String) : LocResponse → Option String × List Request
  | LocResponse.reqError => (none, [autoReq t, searchReq t])
  | LocResponse.nonList => (none, [autoReq t, searchReq t])
  | LocResponse.items locations => (findLocationKey locations, [autoReq t, searchReq t])

/-- One iteration of the `for search_term in search_terms` loop (clima.py
lines 75-123) given the two decoded responses: the autocomplete endpoint is
consulted first; a `RequestException` (`continue`) or a non-list response
(`continue`) skips the search endpoint for this variant, a usable suggestion
returns its key, and only otherwise is the search endpoint consulted. -/
def tryAutoEndpoint (t : String) (searchResp : LocResponse) :
    LocResponse → Option String × List Request
  | LocResponse.reqError => (none, [autoReq t])
  | LocResponse.nonList => (none, [autoReq t])
  | LocResponse.items suggestions =>
    match findSuggestionKey suggestions with
    | some k => (some k, [autoReq t])
    | none => trySearchEndpoint t searchResp

/-- One loop iteration against the environment. -/
def tryVariant (env : LocEnv) (t : String) : Option String × List Request :=
  tryAutoEndpoint t (env.search t) (env.autocomplete t)

/-- The whole `for search_term in search_terms` loop: variants in order,
stopping at the first key found. -/
def tryVariants (env : LocEnv) : List String → Option String × List Request
  | [] => (none, [])
  | t :: ts =>
    match tryVariant env t with
    | (some k, reqs) => (some k, reqs)
    | (none, reqs) =>
      let r := tryVariants env ts
      (r.1, reqs ++ r.2)

/-- `get_location_key` (clima.py lines 26-138): manual mapping on the
lower-cased stripped input first, then cleaning, then the search loop.
An empty cleaned name returns `None` without any HTTP call. -/
def get_location_key (env : LocEnv) (city : String) : Option String × List Request :=
  let normalized_city := pyStrip (pyLower city)
  match lookupMapping CITY_MANUAL_MAPPING normalized_city with
  | some locationKey => (some locationKey, [])
  | none =>
    let cityA := pyTitle (pyStrip city)
    let cityB := stripPhrasesGo cityA sorted_common_phrases
    if cityB = "" then (none, [])
    else
      let cityC := if pyStartsWith (pyLower cityB) "de " then pyStrip (pyDrop cityB 3) else cityB
      tryVariants env (searchTerms cityC)

/-! ## Weather fetchers (clima.py lines 140-278) -/

/-- A JSON value stored in a returned weather record.  Only the shape matters
to the claims; nested objects (the `rain` / `snow` dicts of OpenWeatherMap)
are kept opaque. -/
inductive JVal where
  | str (v : String)
  | num (v : Int)
  | dec (v : PyNum)
  | obj
  deriving DecidableEq

/-- The module-level configuration read from the environment at import time
(clima.py lines 10-11).  `none` models an unset variable. -/
structure Globals where
  accuweather_api_key : Option String
  openweather_api_key : Option String
  deriving DecidableEq

/-- Negation of `not ACCUWEATHER_API_KEY or ACCUWEATHER_API_KEY ==
'your_api_key_here'` (clima.py line 148): the key is set, non-empty and not
the placeholder. -/
def awKeyConfigured (g : Globals) : Bool :=
  match g.accuweather_api_key with
  | none => false
  | some k => !(k == "") && !(k == "your_api_key_here")

/-- Negation of `not OPENWEATHER_API_KEY` (clima.py line 220). -/
def owmKeyConfigured (g : Globals) : Bool :=
  match g.openweather_api_key with
  | none => false
  | some k => !(k == "")

/-- The first element of the current-conditions JSON array, restricted to the
values the code extracts.  Each nested-`get` chain such as
`current.get('Temperature', {}).get('Metric', {}).get('Value')` is collapsed
into the `Option JVal` it produces (`none` when any step is missing or the
value is JSON `null`).  `WeatherText` is special because a missing key
defaults to `'Unknown'` while a `null` value does not: `none` models a
missing key, `some none` a `null` value. -/
structure AwConditions where
  weatherText : Option (Option String)
  temperature : Option JVal
  realFeel : Option JVal
  humidity : Option JVal
  wind : Option JVal
  windDirection : Option JVal
  uvIndex : Option JVal
  visibility : Option JVal
  pressure : Option JVal
  precipitation : Option JVal
  deriving DecidableEq

/-- Decoded response of the current-conditions endpoint: request exception
(with its message, which flows into the returned error), an empty or
non-list JSON (`if not data or not isinstance(data, list)`), or a non-empty
list whose head is `data[0]`. -/
inductive CondResponse where
  | reqError (msg : String)
  | invalid
  | ok (first : AwConditions) (rest : List AwConditions)

/-- Environment of `get_weather_accuweather`: geocoding responses plus the
current-conditions response as a function of the location key. -/
structure AwEnv where
  loc : LocEnv
  conditions : String → CondResponse

/-- Result of a provider call: the Python `(success, result)` pair, where a
failure carries the `error` and `type` fields of the error dict and a
success carries the weather record as an ordered key/value list. -/
inductive FetchResult where
  | failure (error : String) (etype : String)
  | success (record : List (String × JVal))
  deriving DecidableEq

/-- Python dict comprehension `{k: v for k, v in d.items() if v is not None}`:
drop the `none` values, keeping insertion order. -/
def filterSomes : List (String × Option JVal) → List (String × JVal)
  | [] => []
  | p :: rest =>
    match p.2 with
    | some v => (p.1, v) :: filterSomes rest
    | none => filterSomes rest

/-- The `weather_data` dict built from `data[0]` (clima.py lines 181-198),
after the `None`-filtering comprehension. -/
def awRecord (city : String) (c : AwConditions) : List (String × JVal) :=
  filterSomes
    [("city", some (JVal.str city)),
     ("source", some (JVal.str "AccuWeather")),
     ("condition",
       match c.weatherText with
       | none => some (JVal.str "Unknown")
       | some none => none
       | some (some s) => some (JVal.str s)),
     ("temperature", c.temperature),
     ("real_feel", c.realFeel),
     ("humidity", c.humidity),
     ("wind", c.wind),
     ("wind_unit", some (JVal.str "km/h")),
     ("wind_direction", c.windDirection),
     ("uv_index", c.uvIndex),
     ("visibility", c.visibility),
     ("pressure", c.pressure),
     ("precipitation", c.precipitation)]

/-- `get_weather_accuweather` (clima.py lines 140-210): key check, location
resolution, current-conditions call (timeout 10), extraction.  A falsy
location key (`None` or the empty string) yields the `location_error`
failure. -/
def get_weather_accuweather (g : Globals) (env : AwEnv) (city : String) :
    FetchResult × List Request :=
  if !(awKeyConfigured g) then
    (FetchResult.failure "AccuWeather API key not configured" "config_error", [])
  else
    match get_location_key env.loc city with
    | (none, reqs) =>
      (FetchResult.failure ("Location not found: " ++ city) "location_error", reqs)
    | (some locationKey, reqs) =>
      if locationKey = "" then
        (FetchResult.failure ("Location not found: " ++ city) "location_error", reqs)
      else
        let req : Request := ⟨Endpoint.currentConditions, locationKey, some 10⟩
        match env.conditions locationKey with
        | CondResponse.reqError m =>
          (FetchResult.failure ("Network error: " ++ m) "network_error", reqs ++ [req])
        | CondResponse.invalid =>
          (FetchResult.failure "Invalid response from AccuWeather" "api_error", reqs ++ [req])
        | CondResponse.ok first _ =>
          (FetchResult.success (awRecord city first), reqs ++ [req])

/-- The fields of a `pyowm` observation that the code reads (clima.py lines
227-252), each nullable value as the `Option JVal` it yields. -/
structure OwmWeather where
  detailedStatus : String
  temp : Option JVal
  tempMin : Option JVal
  tempMax : Option JVal
  feelsLike : Option JVal
  humidity : Option JVal
  press : Option JVal
  windSpeed : Option JVal
  windDeg : Option JVal
  clouds : Option JVal
  rain : Option JVal
  snow : Option JVal
  sunrise : Option JVal
  sunset : Option JVal
  referenceTime : Option JVal
  deriving DecidableEq

/-- Outcome of `mgr.weather_at_place(city)`: the pyowm exceptions the code
catches (clima.py lines 259-278) or a successful observation. -/
inductive OwmResponse where
  | notFound
  | unauthorized
  | reqError (msg : String)
  | exn (msg : String)
  | ok (w : OwmWeather)

/-- Environment of `get_weather_openweather`. -/
structure OwmEnv where
  weather_at_place : String → OwmResponse

/-- The `weather_data` dict built from the observation (clima.py lines
234-256), after the `None`-filtering comprehension. -/
def owmRecord (city : String) (w : OwmWeather) : List (String × JVal) :=
  filterSomes
    [("city", some (JVal.str city)),
     ("source", some (JVal.str "OpenWeatherMap")),
     ("condition", some (JVal.str (pyCapitalize w.detailedStatus))),
     ("temperature", w.temp),
     ("temp_min", w.tempMin),
     ("temp_max", w.tempMax),
     ("real_feel", w.feelsLike),
     ("humidity", w.humidity),
     ("pressure", w.press),
     ("wind", w.windSpeed),
     ("wind_unit", some (JVal.str "m/s")),
     ("wind_direction", w.windDeg),
     ("clouds", w.clouds),
     ("rain", w.rain),
     ("snow", w.snow),
     ("sunrise", w.sunrise),
     ("sunset", w.sunset),
     ("reference_time", w.referenceTime)]

/-- `get_weather_openweather` (clima.py lines 212-278).  The code passes no
explicit timeout; `pyowm`'s default connection configuration bounds the
request at its `timeout_secs` default of 5 seconds, which is what the
request record carries. -/
def get_weather_openweather (g : Globals) (env : OwmEnv) (city : String) :
    FetchResult × List Request :=
  if !(owmKeyConfigured g) then
    (FetchResult.failure "OpenWeatherMap API key not configured" "config_error", [])
  else
    let req : Request := ⟨Endpoint.owmWeatherAtPlace, city, some 5⟩
    match env.weather_at_place city with
    | OwmResponse.notFound =>
      (FetchResult.failure ("Location not found: " ++ city) "location_error", [req])
    | OwmResponse.unauthorized =>
      (FetchResult.failure "Invalid OpenWeatherMap API key" "auth_error", [req])
    | OwmResponse.reqError m =>
      (FetchResult.failure ("Network error: " ++ m) "network_error", [req])
    | OwmResponse.exn m =>
      (FetchResult.failure ("OpenWeatherMap error: " ++ m) "api_error", [req])
    | OwmResponse.ok w =>
      (FetchResult.success (owmRecord city w), [req])

/-! ## Provider fallback (`get_weather`, clima.py lines 280-349) -/

/-- The command-prefix list of `get_weather` (clima.py lines 296-300), in
source order (`'clima en'` really appears twice). -/
def command_prefixes : List String :=
  ["weather in", "clima en", "weather for", "clima para",
   "weather at", "clima en", "weather", "clima",
   "temperatura en", "temperature in", "tiempo en", "weather en"]

/-- The prefix-removal loop of `get_weather` (clima.py lines 302-305): only
the first matching entry is removed (the loop `break`s). -/
def dropCommandPhrase (city : String) : List String → String
  | [] => city
  | p :: ps =>
    if pyStartsWith (pyLower city) (pyLower p) then pyStrip (pyDrop city (pyLen p))
    else dropCommandPhrase city ps

/-- The full input cleaning of `get_weather` (clima.py lines 293-308): strip,
one command prefix, surrounding quotes, strip. -/
def cleanWeatherCity (city_input : String) : String :=
  pyStrip (pyStripChars (dropCommandPhrase (pyStrip city_input) command_prefixes)
    [Char.ofNat 39, Char.ofNat 34])

/-- The dict returned by `get_weather`: a weather record, or an error dict
with `error` and `type` fields and, for the both-providers-failed case, a
`details` object holding the `accuweather_error` and `openweather_error`
strings. -/
inductive WeatherOutput where
  | record (r : List (String × JVal))
  | errorOut (error : String) (etype : String) (details : Option (String × String))
  deriving DecidableEq

/-- `get_weather` (clima.py lines 280-349): clean the input, reject an empty
city, try AccuWeather, fall back to OpenWeatherMap, and on a double failure
build the `service_unavailable` error.  In the source the `details` dict is
built from `result.get('error', ...)` after `result` has been rebound to the
OpenWeatherMap failure dict, so both detail fields carry the OpenWeatherMap
error string. -/
def get_weather (g : Globals) (aw : AwEnv) (ow : OwmEnv) (city_input : String) :
    WeatherOutput × List Request :=
  let city := cleanWeatherCity city_input
  if city = "" then
    (WeatherOutput.errorOut "Please provide a city name." "validation_error" none, [])
  else
    match get_weather_accuweather g aw city with
    | (FetchResult.success r, t1) => (WeatherOutput.record r, t1)
    | (FetchResult.failure _ _, t1) =>
      match get_weather_openweather g ow city with
      | (FetchResult.success r, t2) => (WeatherOutput.record r, t1 ++ t2)
      | (FetchResult.failure e2 _, t2) =>
        (WeatherOutput.errorOut
          "Could not retrieve weather information. Both services failed."
          "service_unavailable" (some (e2, e2)), t1 ++ t2)

/-- The module-level state of `clima.py` an import creates: the two API key
bindings (the manual mapping and base URL are literal constants).  The body
of `get_weather` contains no assignment to any module-level name (the
`global` statement never occurs in the file), so a call returns the state it
was given. -/
def get_weather_call (st : Globals) (aw : AwEnv) (ow : OwmEnv) (city_input : String) :
    WeatherOutput × List Request × Globals :=
  let r := get_weather st aw ow city_input
  (r.1, r.2, st)

/-! ## Recommendation engine (`recommend_activity`, clima.py lines 351-467) -/

/-- Keywords of the sunny branch (clima.py line 379). -/
def sunny_conds : List String := ["sunny", "clear", "sun"]

/-- Keywords of the cloudy branch (clima.py line 401). -/
def cloudy_conds : List String := ["cloudy", "overcast", "clouds"]

/-- Keywords of the rain branch (clima.py line 410). -/
def rain_conds : List String := ["rain", "raining", "rainy"]

/-- Keywords of the snow branch (clima.py line 419). -/
def snow_conds : List String := ["snow", "snowing", "snowy"]

/-- Keywords of the storm branch (clima.py line 428). -/
def storm_conds : List String := ["storm", "stormy", "thunder", "lightning"]

/-- `any(cond in weather_lower for cond in conds)`. -/
def anyCond (wl : String) (conds : List String) : Bool :=
  conds.any (fun c => pyContainsSub wl c)

/-- Sunny suggestions for `temperature > 30` (clima.py lines 383-387). -/
def sunnyHot : List String :=
  ["• Wear sunscreen and a hat",
   "• Visit a pool or beach",
   "• Enjoy a shaded terrace"]

/-- Sunny suggestions for `temperature > 20` (clima.py lines 388-393). -/
def sunnyWarm : List String :=
  ["• Take a walk in the park or city",
   "• Have a picnic outdoors",
   "• Practice outdoor sports"]

/-- Sunny suggestions for other temperatures (clima.py lines 394-399). -/
def sunnyMild : List String :=
  ["• Take a pleasant walk",
   "• Visit a botanical garden",
   "• Enjoy some sun on a terrace"]

/-- The whole sunny branch (clima.py lines 379-399): header, then a
temperature-dependent list only when a temperature was parsed. -/
def sunnyList (t : Option PyNum) : List String :=
  "Great day to enjoy outdoors! " ::
    (match t with
     | none => []
     | some tv => if tv.gtI 30 then sunnyHot else if tv.gtI 20 then sunnyWarm else sunnyMild)

/-- The cloudy branch (clima.py lines 401-408). -/
def cloudyList : List String :=
  ["Cloudy day, but many options! ",
   "• Visit museums or art galleries",
   "• Explore shops and malls",
   "• Enjoy coffee at a cozy café",
   "• Take advantage of that exhibition you had pending"]

/-- The rain branch (clima.py lines 410-417). -/
def rainList : List String :=
  ["Rainy day, perfect for indoor activities! ",
   "• Movie or series marathon",
   "• Try a new recipe at home",
   "• Read that book you have pending",
   "• Board games with friends or family"]

/-- The snow branch (clima.py lines 419-426). -/
def snowList : List String :=
  ["Snow day! ",
   "• Build a snowman",
   "• Have hot chocolate with churros",
   "• If you're in the mountains, ski or snowboard",
   "• Photograph the winter landscape"]

/-- The storm branch (clima.py lines 428-435). -/
def stormList : List String :=
  ["Be careful with the storm! ",
   "• Better stay in a safe place",
   "• Disconnect electrical appliances",
   "• Have flashlights handy for possible power outages",
   "• Take advantage of organizing at home"]

/-- The generic hot-day list (clima.py lines 440-445). -/
def genericHotList : List String :=
  ["Hot day, stay hydrated ",
   "• Visit places with air conditioning",
   "• Enjoy a cold drink on the terrace",
   "• Go to the pool or beach"]

/-- The generic cold-day list (clima.py lines 446-452). -/
def genericColdList : List String :=
  ["It's cold! Dress warmly ",
   "• Enjoy a hot drink",
   "• Plan indoor activities",
   "• Prepare a hot soup or stew"]

/-- The no-recommendation fallback (clima.py lines 455-461). -/
def noRecsList : List String :=
  ["No specific recommendations, but here are some ideas:",
   "• Take a short walk",
   "• Take advantage of learning something new",
   "• Organize your plans for the coming days"]

/-- Temperature extraction from the split lines (clima.py lines 369-376):
`next` picks the first line whose lower case contains `'temperature'`; only
if that line also contains `':'` is the text after the first `':'`, with
`'°C'` removed and stripped, fed to `float`. -/
def extractTempLines (lines : List String) : Option PyNum :=
  match lines.find? (fun s => pyContainsSub (pyLower s) "temperature") with
  | none => none
  | some line =>
    if pyContainsChar line ':' then
      match (pySplitChar line ':').get? 1 with
      | some part => pyFloat (pyStrip (pyReplace part "°C" ""))
      | none => none
    else none

/-- Temperature extraction from the full weather text. -/
def extractTemperature (weather : String) : Option PyNum :=
  extractTempLines (pySplitChar weather '\n')

/-- The `recommendations` list built by `recommend_activity` (clima.py lines
366-461): the keyword `if/elif` chain, the temperature-only generic branch,
and the final fallback when the list stayed empty. -/
def buildRecommendations (weather : String) : List String :=
  let wl := pyLower weather
  let t := extractTemperature weather
  let recs :=
    if anyCond wl sunny_conds then sunnyList t
    else if anyCond wl cloudy_conds then cloudyList
    else if anyCond wl rain_conds then rainList
    else if anyCond wl snow_conds then snowList
    else if anyCond wl storm_conds then stormList
    else
      match t with
      | some tv =>
        if tv.gtI 25 then genericHotList
        else if tv.ltI 10 then genericColdList
        else []
      | none => []
  if recs.isEmpty then noRecsList else recs

/-- `recommend_activity` (clima.py lines 351-467).  The `isinstance` guard is
vacuous in the typed embedding; `not weather` is the empty-string test. -/
def recommend_activity (weather : String) (target_language : String) : String :=
  if weather = "" then
    "No recommendations could be generated. Weather information not available."
  else
    let text := pyJoin "\n" (buildRecommendations weather)
    if !(target_language == "en-us") then text ++ "\n\n(Recommendations in English)"
    else text

/-- First defined value of a list of optional results, in order. -/
def firstSome : List (Option String) → Option String
  | [] => none
  | o :: rest =>
    match o with
    | some k => some k
    | none => firstSome rest

/-- Lookup of a key in a weather record (first binding wins; the records
built by the code have distinct keys). -/
def recordGet : List (String × JVal) → String → Option JVal
  | [], _ => none
  | p :: rest, k => if p.1 = k then some p.2 else recordGet rest k

/-! ## Concrete environments used by witnesses and counterexamples -/

/-- An environment whose geocoding endpoints always return a non-list
response (used to instantiate claims whose statements do not depend on the
responses). -/
def inertLocEnv : LocEnv := ⟨fun _ => LocResponse.nonList, fun _ => LocResponse.nonList⟩

/-- A both-providers-fail configuration: no API key is set, so AccuWeather
fails with its config error and the fallback fails with its own, different,
config error. -/
def gNoKeys : Globals := ⟨none, none⟩

/-- An AccuWeather environment used by concrete instantiations. -/
def awInert : AwEnv := ⟨inertLocEnv, fun _ => CondResponse.invalid⟩

/-- An OpenWeatherMap environment used by concrete instantiations. -/
def owInert : OwmEnv := ⟨fun _ => OwmResponse.exn "boom"⟩

/-- A fully successful configuration for concrete instantiations: both keys
set. -/
def gBoth : Globals := ⟨some "AKEY", some "OKEY"⟩

/-- Geocoding environment resolving every search term to key `12345`. -/
def locHit : LocEnv :=
  ⟨fun _ => LocResponse.items [⟨some "12345", some "Madrid"⟩], fun _ => LocResponse.nonList⟩

/-- Current conditions: sunny, 25°C, 40% humidity, wind 10 km/h. -/
def condSunny : AwConditions :=
  ⟨some (some "Sunny"), some (JVal.dec ⟨25, 1⟩), none, some (JVal.num 40),
   some (JVal.dec ⟨10, 1⟩), none, none, none, none, none⟩

/-- A successful AccuWeather environment. -/
def awHit : AwEnv := ⟨locHit, fun _ => CondResponse.ok condSunny []⟩

/-- An environment whose autocomplete returns one suggestion that has a
`Key` but no `LocalizedName`, while the search endpoint returns a location
with `Key` `'B'`. -/
def envC3 : LocEnv :=
  ⟨fun _ => LocResponse.items [⟨some "A", none⟩],
   fun _ => LocResponse.items [⟨some "B", none⟩]⟩

/-- A current-conditions element carrying none of the optional values: the
JSON object `data[0]` is empty. -/
def condEmpty : AwConditions := ⟨none, none, none, none, none, none, none, none, none, none⟩

/-- An AccuWeather environment whose lookup succeeds but whose
current-conditions element is empty. -/
def awEmptyCond : AwEnv := ⟨locHit, fun _ => CondResponse.ok condEmpty []⟩

/-! ## Evaluation checks of the string layer and the cleaners -/

theorem pyFloat_eval_checks :
    pyFloat "25" = some ⟨25, 1⟩ ∧
    pyFloat " -2.5 " = some ⟨-25, 10⟩ ∧
    pyFloat "1e2" = some ⟨100, 1⟩ ∧
    pyFloat "2.5.3" = none ∧
    pyFloat "" = none ∧
    pyFloat "." = none := by decide

theorem string_layer_eval_checks :
    pyTitle "  istanbul de x" = "  Istanbul De X" ∧
    pyReplace "a de b de c" " de " " " = "a b c" ∧
    pySplitChar "a:b:c" ':' = ["a", "b", "c"] ∧
    pySplitWs " a  b " = ["a", "b"] ∧
    pyStrip "  x " = "x" ∧
    pyJoin " " ["a", "b"] = "a b" ∧
    pyContainsSub "xtemperaturey" "temperature" = true ∧
    pyStripChars "'x\"" [Char.ofNat 39, Char.ofNat 34] = "x" := by decide

theorem sorted_common_phrases_eval :
    sorted_common_phrases =
      ["weather in", "tiempo en", "clima en", "weather", "tiempo", "would",
       "clima", "what", "like", "like", "know", "the", "for", "del", "is",
       "in", "to", "el", "la", "de", "en", "i"] := by decide

theorem cleanLocationCity_eval_checks :
    cleanLocationCity "Istanbul" = "tanbul" ∧
    cleanLocationCity "what is the weather in Madrid" = "The Weather In Madrid" ∧
    cleanLocationCity "weather in Madrid" = "Madrid" ∧
    cleanLocationCity "Vigo" = "Vigo" := by decide

theorem recommendation_eval_checks :
    extractTemperature "sunny\nTemperature: 25°C" = some ⟨25, 1⟩ ∧
    buildRecommendations "sunny and rainy" = ["Great day to enjoy outdoors! "] ∧
    buildRecommendations "Temperature: 27°C" = genericHotList ∧
    buildRecommendations "Temperature: 15°C" = noRecsList ∧
    recommend_activity "" "en-us" =
      "No recommendations could be generated. Weather information not available." := by decide

/-! ## Helper lemmas -/

theorem tryVariant_trace_shape (env : LocEnv) (t : String) :
    (tryVariant env t).2 = [⟨Endpoint.autocomplete, t, some 10⟩] ∨
    (tryVariant env t).2 = [⟨Endpoint.autocomplete, t, some 10⟩, ⟨Endpoint.search, t, some 10⟩] := by
  unfold tryVariant
  cases env.autocomplete t with
  | reqError => exact Or.inl rfl
  | nonList => exact Or.inl rfl
  | items l =>
    simp only [tryAutoEndpoint]
    cases h : findSuggestionKey l with
    | none =>
      cases env.search t <;> exact Or.inr rfl
    | some k =>
      exact Or.inl rfl

theorem tryVariant_trace_head (env : LocEnv) (t : String) :
    ((tryVariant env t).2).head? = some ⟨Endpoint.autocomplete, t, some 10⟩ := by
  rcases tryVariant_trace_shape env t with h | h <;> rw [h] <;> rfl

theorem tryVariant_mem_auto (env : LocEnv) (t : String) :
    (⟨Endpoint.autocomplete, t, some 10⟩ : Request) ∈ (tryVariant env t).2 := by
  rcases tryVariant_trace_shape env t with h | h <;> rw [h] <;> simp

theorem tryVariant_timeout (env : LocEnv) (t : String) (r : Request)
    (h : r ∈ (tryVariant env t).2) : r.timeout = some 10 := by
  rcases tryVariant_trace_shape env t with hs | hs <;> rw [hs] at h
  · rw [List.mem_singleton.mp h]
  · rcases List.mem_cons.mp h with h1 | h1
    · rw [h1]
    · rw [List.mem_singleton.mp h1]

theorem tryVariants_trace_head (env : LocEnv) (t : String) (ts : List String) :
    ((tryVariants env (t :: ts)).2).head? = some ⟨Endpoint.autocomplete, t, some 10⟩ := by
  have hh := tryVariant_trace_head env t
  unfold tryVariants
  cases htv : tryVariant env t with
  | mk o reqs =>
    rw [htv] at hh
    cases o with
    | none =>
      simp only
      cases reqs with
      | nil => simp at hh
      | cons a l => simpa using hh
    | some k => exact hh

theorem tryVariants_result (env : LocEnv) (ts : List String) :
    (tryVariants env ts).1 = firstSome (ts.map (fun t => (tryVariant env t).1)) := by
  induction ts with
  | nil => rfl
  | cons t ts ih =>
    unfold tryVariants
    cases htv : tryVariant env t with
    | mk o reqs =>
      cases o with
      | none => simpa [firstSome, htv] using ih
      | some k => simp [firstSome, htv]

theorem tryVariants_none_mem (env : LocEnv) (ts : List String)
    (h : (tryVariants env ts).1 = none) :
    ∀ t ∈ ts, (⟨Endpoint.autocomplete, t, some 10⟩ : Request) ∈ (tryVariants env ts).2 := by
  induction ts with
  | nil => intro t ht; cases ht
  | cons u ts ih =>
    intro t ht
    unfold tryVariants at h ⊢
    cases htv : tryVariant env u with
    | mk o reqs =>
      rw [htv] at h
      cases o with
      | some k => simp at h
      | none =>
        simp only at h ⊢
        rcases List.mem_cons.mp ht with rfl | hts
        · have := tryVariant_mem_auto env t
          rw [htv] at this
          exact List.mem_append_left _ this
        · exact List.mem_append_right _ (ih h t hts)

theorem tryVariants_timeout (env : LocEnv) (ts : List String) (r : Request)
    (h : r ∈ (tryVariants env ts).2) : r.timeout = some 10 := by
  induction ts with
  | nil => cases h
  | cons t ts ih =>
    unfold tryVariants at h
    cases htv : tryVariant env t with
    | mk o reqs =>
      rw [htv] at h
      cases o with
      | none =>
        simp only at h
        rcases List.mem_append.mp h with h | h
        · exact tryVariant_timeout env t r (htv ▸ h)
        · exact ih h
      | some k => exact tryVariant_timeout env t r (htv ▸ h)

theorem get_location_key_timeout (env : LocEnv) (city : String) (r : Request)
    (h : r ∈ (get_location_key env city).2) : r.timeout = some 10 := by
  simp only [get_location_key] at h
  cases hm : lookupMapping CITY_MANUAL_MAPPING (pyStrip (pyLower city)) with
  | some k => rw [hm] at h; cases h
  | none =>
    rw [hm] at h
    by_cases hB : stripPhrasesGo (pyTitle (pyStrip city)) sorted_common_phrases = ""
    · rw [if_pos hB] at h; cases h
    · rw [if_neg hB] at h
      exact tryVariants_timeout env _ r h

theorem get_weather_accuweather_timeout (g : Globals) (env : AwEnv) (city : String)
    (r : Request) (h : r ∈ (get_weather_accuweather g env city).2) : r.timeout = some 10 := by
  unfold get_weather_accuweather at h
  split at h
  · cases h
  · cases hl : get_location_key env.loc city with
    | mk o reqs =>
      rw [hl] at h
      cases o with
      | none => exact get_location_key_timeout env.loc city r (hl ▸ h)
      | some key =>
        simp only at h
        split at h
        · exact get_location_key_timeout env.loc city r (hl ▸ h)
        · have hreqs : r ∈ reqs → r.timeout = some 10 := fun hr =>
            get_location_key_timeout env.loc city r (hl ▸ hr)
          cases hc : env.conditions key with
          | reqError m =>
            rw [hc] at h
            rcases List.mem_append.mp h with h | h
            · exact hreqs h
            · simp at h; subst h; rfl
          | invalid =>
            rw [hc] at h
            rcases List.mem_append.mp h with h | h
            · exact hreqs h
            · simp at h; subst h; rfl
          | ok first rest =>
            rw [hc] at h
            rcases List.mem_append.mp h with h | h
            · exact hreqs h
            · simp at h; subst h; rfl

theorem get_weather_openweather_timeout (g : Globals) (env : OwmEnv) (city : String)
    (r : Request) (h : r ∈ (get_weather_openweather g env city).2) : r.timeout = some 5 := by
  unfold get_weather_openweather at h
  split at h
  · cases h
  · cases hw : env.weather_at_place city <;> rw [hw] at h <;> simp at h <;> subst h <;> rfl

/-! ## Claims -/

/-- Claim C2: `get_location_key` consults the manual override table before
any other processing — whenever the lower-cased, stripped input is a key of
`CITY_MANUAL_MAPPING`, the mapped location key is returned immediately, with
no phrase stripping and no geocoding HTTP request (the request trace is
empty, and the result does not depend on the HTTP environment). -/
theorem C2_manual_mapping_first (env : LocEnv) (city locationKey : String)
    (h : lookupMapping CITY_MANUAL_MAPPING (pyStrip (pyLower city)) = some locationKey) :
    get_location_key env city = (some locationKey, []) := by
  simp only [get_location_key, h]

/-- Witness for C2 at the concrete input `" Vilagarcia DE Arousa "`. -/
theorem C2_manual_mapping_first_witness :
    get_location_key inertLocEnv " Vilagarcia DE Arousa " = (some "308526", []) :=
  C2_manual_mapping_first inertLocEnv " Vilagarcia DE Arousa " "308526" (by decide)

/-- Claim C9 (counterexample): phrase stripping on the input `'Istanbul'`
removes the leading characters matched by the phrase `'is'`, but the search
term actually sent to the geocoding endpoint is `'tanbul'` (the unchanged
tail of the original string), not `'Tanbul'` as the claim states: no request
with query `'Tanbul'` is ever issued. -/
theorem C9_counterexample :
    (get_location_key inertLocEnv "Istanbul").2 =
      [⟨Endpoint.autocomplete, "tanbul", some 10⟩,
       ⟨Endpoint.autocomplete, "tanbul", some 10⟩,
       ⟨Endpoint.autocomplete, "tanbul", some 10⟩] ∧
    ¬ ("Tanbul" ∈ (get_location_key inertLocEnv "Istanbul").2.map Request.query) := by
  constructor
  · rfl
  · decide

/-- Claim C9 (amended): common-phrase stripping is prefix-based without word
boundaries — for the input `'Istanbul'` the leading `'Is'` matches the
phrase `'is'`, so whatever the geocoding responses are, the first request
sent to the geocoding endpoint carries the search term `'tanbul'`. -/
theorem C9_prefix_stripping (env : LocEnv) :
    ((get_location_key env "Istanbul").2).head? =
      some ⟨Endpoint.autocomplete, "tanbul", some 10⟩ := by
  have hk : get_location_key env "Istanbul" =
      tryVariants env ["tanbul", "tanbul", "tanbul"] := rfl
  rw [hk]
  exact tryVariants_trace_head env "tanbul" ["tanbul", "tanbul"]

/-- Claim C10: when both providers fail, the `details` object of the
structured error carries the OpenWeatherMap error string in both the
`accuweather_error` and `openweather_error` fields, because `result` is
rebound by the fallback call before the details are built — the AccuWeather
error message `e1` never appears. -/
theorem C10_details_overwritten (g : Globals) (aw : AwEnv) (ow : OwmEnv) (input : String)
    (e1 ty1 : String) (t1 : List Request) (e2 ty2 : String) (t2 : List Request)
    (hne : cleanWeatherCity input ≠ "")
    (h1 : get_weather_accuweather g aw (cleanWeatherCity input) =
      (FetchResult.failure e1 ty1, t1))
    (h2 : get_weather_openweather g ow (cleanWeatherCity input) =
      (FetchResult.failure e2 ty2, t2)) :
    (get_weather g aw ow input).1 =
      WeatherOutput.errorOut "Could not retrieve weather information. Both services failed."
        "service_unavailable" (some (e2, e2)) := by
  simp only [get_weather, if_neg hne, h1, h2]

/-- Witness for C10: with no keys configured the AccuWeather error is
`'AccuWeather API key not configured'`, yet both detail fields carry the
OpenWeatherMap error `'OpenWeatherMap API key not configured'`. -/
theorem C10_details_overwritten_witness :
    (get_weather gNoKeys awInert owInert "Madrid").1 =
      WeatherOutput.errorOut "Could not retrieve weather information. Both services failed."
        "service_unavailable"
        (some ("OpenWeatherMap API key not configured", "OpenWeatherMap API key not configured")) :=
  C10_details_overwritten gNoKeys awInert owInert "Madrid"
    "AccuWeather API key not configured" "config_error" []
    "OpenWeatherMap API key not configured" "config_error" []
    (by decide) (by decide) (by decide)

/-- Claim C8: the weather lookup does not cache or persist observations —
a call to `get_weather` leaves the module-level state unchanged, and a
second call with the same input and the same provider responses issues the
same requests again and returns the same result. -/
theorem C8_no_caching (st : Globals) (aw : AwEnv) (ow : OwmEnv) (input : String) :
    (get_weather_call st aw ow input).2.2 = st ∧
    (get_weather_call ((get_weather_call st aw ow input).2.2) aw ow input).1 =
      (get_weather_call st aw ow input).1 ∧
    (get_weather_call ((get_weather_call st aw ow input).2.2) aw ow input).2.1 =
      (get_weather_call st aw ow input).2.1 :=
  ⟨rfl, rfl, rfl⟩

/-- Claim C5: the keyword categories are checked against the lower-cased
weather text in a fixed priority order — sunny, cloudy, rain, snow, storm —
and the output contains the canned list of the highest-priority matching
category only, whatever other categories also match. -/
theorem C5_category_priority (weather : String) :
    (anyCond (pyLower weather) sunny_conds = true →
      buildRecommendations weather = sunnyList (extractTemperature weather)) ∧
    (anyCond (pyLower weather) sunny_conds = false →
     anyCond (pyLower weather) cloudy_conds = true →
      buildRecommendations weather = cloudyList) ∧
    (anyCond (pyLower weather) sunny_conds = false →
     anyCond (pyLower weather) cloudy_conds = false →
     anyCond (pyLower weather) rain_conds = true →
      buildRecommendations weather = rainList) ∧
    (anyCond (pyLower weather) sunny_conds = false →
     anyCond (pyLower weather) cloudy_conds = false →
     anyCond (pyLower weather) rain_conds = false →
     anyCond (pyLower weather) snow_conds = true →
      buildRecommendations weather = snowList) ∧
    (anyCond (pyLower weather) sunny_conds = false →
     anyCond (pyLower weather) cloudy_conds = false →
     anyCond (pyLower weather) rain_conds = false →
     anyCond (pyLower weather) snow_conds = false →
     anyCond (pyLower weather) storm_conds = true →
      buildRecommendations weather = stormList) ∧
    (weather ≠ "" →
      recommend_activity weather "en-us" = pyJoin "\n" (buildRecommendations weather)) := by
  refine ⟨?_, ?_, ?_, ?_, ?_, ?_⟩
  · intro h1
    simp only [buildRecommendations, h1, if_true]
    cases extractTemperature weather <;> rfl
  · intro h1 h2
    simp [buildRecommendations, h1, h2, cloudyList]
  · intro h1 h2 h3
    simp [buildRecommendations, h1, h2, h3, rainList]
  · intro h1 h2 h3 h4
    simp [buildRecommendations, h1, h2, h3, h4, snowList]
  · intro h1 h2 h3 h4 h5
    simp [buildRecommendations, h1, h2, h3, h4, h5, stormList]
  · intro hne
    simp only [recommend_activity, if_neg hne]
    rfl

/-- Witness for C5 at a text matching the sunny, cloudy and rain categories
at once: only the sunny branch output appears. -/
theorem C5_category_priority_witness :
    buildRecommendations "sunny rain clouds" = ["Great day to enjoy outdoors! "] :=
  ((C5_category_priority "sunny rain clouds").1 (by decide)).trans (by decide)

/-- Claim C1: for every input whose cleaned city is non-empty, `get_weather`
queries AccuWeather first (its requests form the head of the trace).  If
AccuWeather succeeds its record is returned and OpenWeatherMap is not
queried (the result is the same under every OpenWeatherMap environment,
and the trace is exactly the AccuWeather trace).  If AccuWeather fails —
including the unconfigured-key failure — the OpenWeatherMap path decides the
outcome: its record on success, and on a double failure the structured
`service_unavailable` error with its `details` pair. -/
theorem C1_provider_fallback (g : Globals) (aw : AwEnv) (ow ow2 : OwmEnv) (input : String)
    (hne : cleanWeatherCity input ≠ "") :
    (∀ r t1, get_weather_accuweather g aw (cleanWeatherCity input) =
        (FetchResult.success r, t1) →
      get_weather g aw ow input = (WeatherOutput.record r, t1) ∧
      get_weather g aw ow input = get_weather g aw ow2 input) ∧
    (∀ e ty t1, get_weather_accuweather g aw (cleanWeatherCity input) =
        (FetchResult.failure e ty, t1) →
      (∀ r2 t2, get_weather_openweather g ow (cleanWeatherCity input) =
          (FetchResult.success r2, t2) →
        get_weather g aw ow input = (WeatherOutput.record r2, t1 ++ t2)) ∧
      (∀ e2 ty2 t2, get_weather_openweather g ow (cleanWeatherCity input) =
          (FetchResult.failure e2 ty2, t2) →
        get_weather g aw ow input =
          (WeatherOutput.errorOut
            "Could not retrieve weather information. Both services failed."
            "service_unavailable" (some (e2, e2)), t1 ++ t2))) := by
  constructor
  · intro r t1 h
    constructor
    · simp only [get_weather, if_neg hne, h]
    · simp only [get_weather, if_neg hne, h]
  · intro e ty t1 h
    constructor
    · intro r2 t2 h2
      simp only [get_weather, if_neg hne, h, h2]
    · intro e2 ty2 t2 h2
      simp only [get_weather, if_neg hne, h, h2]

/-- Witness for C1: a successful AccuWeather lookup for
`'weather in Madrid'` returns the AccuWeather record, with exactly one
autocomplete request and one current-conditions request, both issued before
any OpenWeatherMap traffic (of which there is none). -/
theorem C1_provider_fallback_witness :
    get_weather gBoth awHit owInert "weather in Madrid" =
      (WeatherOutput.record
        [("city", JVal.str "Madrid"), ("source", JVal.str "AccuWeather"),
         ("condition", JVal.str "Sunny"), ("temperature", JVal.dec ⟨25, 1⟩),
         ("humidity", JVal.num 40), ("wind", JVal.dec ⟨10, 1⟩),
         ("wind_unit", JVal.str "km/h")],
       [⟨Endpoint.autocomplete, "Madrid", some 10⟩,
        ⟨Endpoint.currentConditions, "12345", some 10⟩]) :=
  ((C1_provider_fallback gBoth awHit owInert owInert "weather in Madrid" (by decide)).1
    _ _ (by decide)).1

/-- Claim C7: every HTTP request issued by a `get_weather` run carries a
finite timeout — 10 seconds for the three AccuWeather endpoints
(`timeout=10` at each `requests.get`) and 5 seconds for the OpenWeatherMap
lookup (pyowm's default `timeout_secs`). -/
theorem C7_timeouts (g : Globals) (aw : AwEnv) (ow : OwmEnv) (input : String) (r : Request)
    (h : r ∈ (get_weather g aw ow input).2) :
    r.timeout = some 10 ∨ r.timeout = some 5 := by
  simp only [get_weather] at h
  by_cases hc : cleanWeatherCity input = ""
  · rw [if_pos hc] at h; cases h
  · rw [if_neg hc] at h
    cases ha : get_weather_accuweather g aw (cleanWeatherCity input) with
    | mk res t1 =>
      rw [ha] at h
      cases res with
      | success rec =>
        have h1 : r ∈ t1 := h
        exact Or.inl (get_weather_accuweather_timeout g aw _ r (by rw [ha]; exact h1))
      | failure e ty =>
        cases ho : get_weather_openweather g ow (cleanWeatherCity input) with
        | mk res2 t2 =>
          rw [ho] at h
          cases res2 with
          | success rec2 =>
            have h1 : r ∈ t1 ++ t2 := h
            rcases List.mem_append.mp h1 with h2 | h2
            · exact Or.inl (get_weather_accuweather_timeout g aw _ r (by rw [ha]; exact h2))
            · exact Or.inr (get_weather_openweather_timeout g ow _ r (by rw [ho]; exact h2))
          | failure e2 ty2 =>
            have h1 : r ∈ t1 ++ t2 := h
            rcases List.mem_append.mp h1 with h2 | h2
            · exact Or.inl (get_weather_accuweather_timeout g aw _ r (by rw [ha]; exact h2))
            · exact Or.inr (get_weather_openweather_timeout g ow _ r (by rw [ho]; exact h2))

/-- Witness for C7 at the first request of a concrete successful run. -/
theorem C7_timeouts_witness :
    (⟨Endpoint.autocomplete, "Madrid", some 10⟩ : Request).timeout = some 10 ∨
    (⟨Endpoint.autocomplete, "Madrid", some 10⟩ : Request).timeout = some 5 :=
  C7_timeouts gBoth awHit owInert "weather in Madrid"
    ⟨Endpoint.autocomplete, "Madrid", some 10⟩ (by decide)

theorem get_location_key_eq_variants (env : LocEnv) (city : String)
    (hman : lookupMapping CITY_MANUAL_MAPPING (pyStrip (pyLower city)) = none)
    (hne : stripPhrasesGo (pyTitle (pyStrip city)) sorted_common_phrases ≠ "") :
    get_location_key env city = tryVariants env (searchTerms (cleanLocationCity city)) := by
  simp only [get_location_key, cleanLocationCity, hman, if_neg hne]

/-- Claim C3 (counterexample): the autocomplete scan does not return the
`Key` of the first suggestion that has one — it also requires
`LocalizedName`.  Here the only autocomplete suggestion carries `Key` `'A'`
(and no `LocalizedName`), yet `get_location_key` falls through to the search
endpoint and returns `'B'`. -/
theorem C3_counterexample :
    findSuggestionKey [⟨some "A", none⟩] = none ∧
    findLocationKey [⟨some "A", none⟩] = some "A" ∧
    (get_location_key envC3 "Paris").1 = some "B" ∧
    (get_location_key envC3 "Paris").1 ≠ some "A" := by decide

/-- Claim C3 (amended): for every input that misses the manual table and
cleans to a non-empty name, exactly three search-term variants are tried in
order, the result is the first variant outcome that produced a key (so
`None` is returned only after all variants were tried, each variant's
autocomplete request appearing in the trace), each variant queries the
autocomplete endpoint first and the search endpoint at most once after it,
and a suggestion is used only when it has both a `Key` and a
`LocalizedName`, the search endpoint needing only a `Key`. -/
theorem C3_variant_order (env : LocEnv) (city : String)
    (hman : lookupMapping CITY_MANUAL_MAPPING (pyStrip (pyLower city)) = none)
    (hne : stripPhrasesGo (pyTitle (pyStrip city)) sorted_common_phrases ≠ "") :
    (searchTerms (cleanLocationCity city)).length = 3 ∧
    (get_location_key env city).1 =
      firstSome ((searchTerms (cleanLocationCity city)).map (fun t => (tryVariant env t).1)) ∧
    ((get_location_key env city).1 = none →
      ∀ t ∈ searchTerms (cleanLocationCity city),
        (⟨Endpoint.autocomplete, t, some 10⟩ : Request) ∈ (get_location_key env city).2) ∧
    (∀ t, (tryVariant env t).2 = [⟨Endpoint.autocomplete, t, some 10⟩] ∨
          (tryVariant env t).2 =
            [⟨Endpoint.autocomplete, t, some 10⟩, ⟨Endpoint.search, t, some 10⟩]) ∧
    (∀ t l k, env.autocomplete t = LocResponse.items l → findSuggestionKey l = some k →
      (tryVariant env t).1 = some k) := by
  have he := get_location_key_eq_variants env city hman hne
  refine ⟨rfl, ?_, ?_, ?_, ?_⟩
  · rw [he]
    exact tryVariants_result env _
  · rw [he]
    exact fun h0 => tryVariants_none_mem env _ h0
  · exact tryVariant_trace_shape env
  · intro t l k hl hk
    unfold tryVariant
    rw [hl]
    simp only [tryAutoEndpoint, hk]

/-- Witness for C3 at the environment of the counterexample: the result for
`'Paris'` is the first defined outcome of the three variants. -/
theorem C3_variant_order_witness :
    (get_location_key envC3 "Paris").1 =
      firstSome ((searchTerms (cleanLocationCity "Paris")).map
        (fun t => (tryVariant envC3 t).1)) :=
  (C3_variant_order envC3 "Paris" (by decide) (by decide)).2.1

theorem recordGet_filterSomes (k : String) (l : List (String × Option JVal)) :
    recordGet (filterSomes l) k =
      (l.find? (fun p => decide (p.1 = k) && p.2.isSome)).bind (fun p => p.2) := by
  induction l with
  | nil => rfl
  | cons p rest ih =>
    obtain ⟨k2, v⟩ := p
    cases v with
    | none => simpa [filterSomes, List.find?] using ih
    | some w =>
      by_cases hk : k2 = k
      · subst hk
        simp [filterSomes, List.find?, recordGet]
      · simp [filterSomes, List.find?, recordGet, hk, ih]

/-- Claim C4 (counterexample): a successful AccuWeather lookup does not
always contain the `temperature`, `humidity` and `wind` fields — with an
empty `data[0]` the call still succeeds, but the `None`-filtering
comprehension drops all three. -/
theorem C4_counterexample :
    (get_weather_accuweather gBoth awEmptyCond "Madrid").1 =
      FetchResult.success (awRecord "Madrid" condEmpty) ∧
    recordGet (awRecord "Madrid" condEmpty) "city" = some (JVal.str "Madrid") ∧
    recordGet (awRecord "Madrid" condEmpty) "condition" = some (JVal.str "Unknown") ∧
    recordGet (awRecord "Madrid" condEmpty) "temperature" = none ∧
    recordGet (awRecord "Madrid" condEmpty) "humidity" = none ∧
    recordGet (awRecord "Madrid" condEmpty) "wind" = none := by decide

/-- Claim C4 (amended): every successful `get_weather_accuweather` result is
the flat record extracted from the first element of some current-conditions
response, and that record always contains the city, source and wind-unit
fields, contains `condition` unless `WeatherText` was JSON `null` (a missing
`WeatherText` defaults to `'Unknown'`), and contains each of `temperature`,
`humidity` and `wind` exactly when the corresponding nested value in the
response is present and non-null — `None` values are dropped by the
filtering comprehension. -/
theorem C4_success_record :
    (∀ (g : Globals) (env : AwEnv) (city : String) (r : List (String × JVal))
        (t : List Request),
      get_weather_accuweather g env city = (FetchResult.success r, t) →
      ∃ key first rest, env.conditions key = CondResponse.ok first rest ∧
        r = awRecord city first) ∧
    (∀ (city : String) (c : AwConditions),
      recordGet (awRecord city c) "city" = some (JVal.str city) ∧
      recordGet (awRecord city c) "source" = some (JVal.str "AccuWeather") ∧
      recordGet (awRecord city c) "wind_unit" = some (JVal.str "km/h") ∧
      recordGet (awRecord city c) "condition" =
        (match c.weatherText with
         | none => some (JVal.str "Unknown")
         | some none => none
         | some (some s) => some (JVal.str s)) ∧
      recordGet (awRecord city c) "temperature" = c.temperature ∧
      recordGet (awRecord city c) "humidity" = c.humidity ∧
      recordGet (awRecord city c) "wind" = c.wind) := by
  constructor
  · intro g env city r t h
    simp only [get_weather_accuweather] at h
    split at h
    · simp at h
    · cases hl : get_location_key env.loc city with
      | mk o reqs =>
        rw [hl] at h
        cases o with
        | none => simp at h
        | some key =>
          simp only at h
          split at h
          · simp at h
          · cases hc : env.conditions key with
            | reqError m => rw [hc] at h; simp at h
            | invalid => rw [hc] at h; simp at h
            | ok first rest =>
              rw [hc] at h
              simp only [Prod.mk.injEq, FetchResult.success.injEq] at h
              exact ⟨key, first, rest, hc, h.1.symm⟩
  · intro city c
    obtain ⟨wt, temp, rf, hum, wind, wd, uv, vis, pr, prec⟩ := c
    refine ⟨?_, ?_, ?_, ?_, ?_, ?_, ?_⟩ <;> rw [awRecord, recordGet_filterSomes]
    · simp [List.find?]
    · simp [List.find?]
    · simp [List.find?]
    · rcases wt with _ | wt2
      · simp [List.find?]
      · rcases wt2 with _ | s <;> simp [List.find?]
    · cases temp <;> simp [List.find?]
    · cases hum <;> simp [List.find?]
    · cases wind <;> simp [List.find?]

/-- Witness for C4: the successful lookup of the concrete environment of
the counterexample is the extraction of its first conditions element. -/
theorem C4_success_record_witness :
    ∃ key first rest, awEmptyCond.conditions key = CondResponse.ok first rest ∧
      ([("city", JVal.str "Madrid"), ("source", JVal.str "AccuWeather"),
        ("condition", JVal.str "Unknown"), ("wind_unit", JVal.str "km/h")] :
          List (String × JVal)) = awRecord "Madrid" first :=
  C4_success_record.1 gBoth awEmptyCond "Madrid"
    [("city", JVal.str "Madrid"), ("source", JVal.str "AccuWeather"),
     ("condition", JVal.str "Unknown"), ("wind_unit", JVal.str "km/h")]
    [⟨Endpoint.autocomplete, "Madrid", some 10⟩,
     ⟨Endpoint.currentConditions, "12345", some 10⟩] (by decide)

/-- Claim C6 (counterexample): the temperature is not parsed from the first
line containing `'temperature'` and a `':'` — `next` picks the first line
containing `'temperature'` alone, and the `':'` test is applied only to that
line.  In this text the line `'Temperature: 25°C'` contains both and parses
to 25, yet the code finds `'temperature high'` first, parses nothing, and
the sunny branch emits no suggestion list at all (under the claim the warm
list for `20 < 25 ≤ 30` would appear). -/
theorem C6_counterexample :
    (pySplitChar "sunny\ntemperature high\nTemperature: 25°C" '\n').find?
        (fun s => pyContainsSub (pyLower s) "temperature" && pyContainsChar s ':') =
      some "Temperature: 25°C" ∧
    pyFloat (pyStrip (pyReplace ((pySplitChar "Temperature: 25°C" ':').getD 1 "") "°C" "")) =
      some ⟨25, 1⟩ ∧
    extractTemperature "sunny\ntemperature high\nTemperature: 25°C" = none ∧
    buildRecommendations "sunny\ntemperature high\nTemperature: 25°C" =
      ["Great day to enjoy outdoors! "] := by decide

/-- Claim C6 (amended): the temperature is parsed from the first line
containing `'temperature'` (case-insensitive), and only when that same line
also contains a `':'`, as the float after the first `':'` with `'°C'`
removed; for a sunny-category text with parsed temperature `t` the
suggestions are the hot list iff `t > 30`, the warm list iff `20 < t ≤ 30`
and the mild list otherwise; for a text matching no keyword category the
hot-day list is produced iff `t > 25`, the cold list iff `t < 10`, and the
generic ideas otherwise. -/
theorem C6_temperature_thresholds :
    (∀ (pre post : List String) (line : String),
      (∀ s ∈ pre, pyContainsSub (pyLower s) "temperature" = false) →
      pyContainsSub (pyLower line) "temperature" = true →
      extractTempLines (pre ++ line :: post) =
        (if pyContainsChar line ':' then
          match (pySplitChar line ':').get? 1 with
          | some part => pyFloat (pyStrip (pyReplace part "°C" ""))
          | none => none
        else none)) ∧
    (∀ (weather : String) (t : PyNum),
      extractTemperature weather = some t →
      anyCond (pyLower weather) sunny_conds = true →
      buildRecommendations weather =
        "Great day to enjoy outdoors! " ::
          (if t.gtI 30 then sunnyHot else if t.gtI 20 then sunnyWarm else sunnyMild)) ∧
    (∀ (weather : String) (t : PyNum),
      extractTemperature weather = some t →
      anyCond (pyLower weather) sunny_conds = false →
      anyCond (pyLower weather) cloudy_conds = false →
      anyCond (pyLower weather) rain_conds = false →
      anyCond (pyLower weather) snow_conds = false →
      anyCond (pyLower weather) storm_conds = false →
      buildRecommendations weather =
        (if t.gtI 25 then genericHotList
         else if t.ltI 10 then genericColdList
         else noRecsList)) := by
  refine ⟨?_, ?_, ?_⟩
  · intro pre post line hpre hline
    induction pre with
    | nil =>
      simp only [List.nil_append, extractTempLines, List.find?, hline]
    | cons s pre ih =>
      have hs : pyContainsSub (pyLower s) "temperature" = false :=
        hpre s (List.mem_cons_self s pre)
      have ih2 := ih (fun s2 hs2 => hpre s2 (List.mem_cons_of_mem s hs2))
      simp only [List.cons_append, extractTempLines, List.find?, hs] at ih2 ⊢
      exact ih2
  · intro weather t ht hsunny
    simp only [buildRecommendations, ht, hsunny, if_true, sunnyList]
    rcases h30 : t.gtI 30 <;> rcases h20 : t.gtI 20 <;> simp [h30, h20]
  · intro weather t ht h1 h2 h3 h4 h5
    simp only [buildRecommendations, ht, h1, h2, h3, h4, h5]
    rcases h25 : t.gtI 25 <;> rcases h10 : t.ltI 10 <;>
      simp [h25, h10, genericHotList, genericColdList, noRecsList]

/-- Witness for C6 at `'sunny' + 'Temperature: 25°C'`: the warm list. -/
theorem C6_temperature_thresholds_witness :
    buildRecommendations "sunny\nTemperature: 25°C" =
      "Great day to enjoy outdoors! " :: sunnyWarm :=
  (C6_temperature_thresholds.2.1 "sunny\nTemperature: 25°C" ⟨25, 1⟩
    (by decide) (by decide)).trans (by decide)

end Clima
